import Mathlib

set_option maxRecDepth 100000

/-!
Verification of the pyemma tutorial notebooks repository.

The repository consists of Jupyter notebooks (tutorial glue around the
external `pyemma` library) plus a CircleCI configuration.  The notebook
code cells are embedded below at the level that the claims require: for
every code cell we record, in source order, the call sites it contains
(each call's dotted callee path as written) and the Python statement
keywords it uses.  The data-fetching call sites (`mdshare.fetch`) and the
single `pyemma.coordinates.save_traj` call site are additionally recorded
with their relevant arguments, and the CircleCI `build` job is embedded
step by step.  Small pure helpers appearing verbatim in the notebooks
(`is_within`, `Karplus`, the observable averaging of the expectations
notebook) are translated directly.
-/

/-- Python statement keywords appearing in a code cell, in source order. -/
inductive PyKw where
  | kwImport
  | kwFrom
  | kwDef
  | kwClass
  | kwFor
  | kwWhile
  | kwWith
  | kwIf
  | kwTry
  | kwExcept
  | kwFinally
  | kwRaise
  | kwLambda
  | kwReturn
  deriving DecidableEq, BEq

/-- One notebook code cell: the dotted callee path of every call site in the
cell (in source order, as written in the cell) and the Python statement
keywords used by the cell. -/
structure NbCell where
  calls : List String
  kws : List PyKw
  deriving DecidableEq

/-- One tutorial notebook: its title (first markdown heading) and its code
cells in order. -/
structure Notebook where
  name : String
  cells : List NbCell
  deriving DecidableEq

/-- One `mdshare.fetch(fname, working_directory=wdir)` call site. -/
structure FetchCall where
  fname : String
  wdir : String
  deriving DecidableEq

/-- One `pyemma.coordinates.save_traj(...)` call site with its arguments. -/
structure SaveTrajCall where
  inputArg : String
  indexesArg : String
  outfile : Option String
  topArg : String
  deriving DecidableEq
def repoNotebooks : List Notebook := [
  { name := "03 - MSM estimation and validation",
    cells := [
      { calls := [],
        kws := [.kwImport, .kwImport, .kwImport, .kwImport] },
      { calls := ["mdshare.fetch", "np.load", "pyemma.coordinates.cluster_kmeans", "plt.subplots", "pyemma.plots.plot_feature_histograms", "scatter", "scatter", "set_xlabel", "set_ylabel", "fig.tight_layout"],
        kws := [.kwWith] },
      { calls := ["pyemma.msm.its"],
        kws := [] },
      { calls := ["pyemma.plots.plot_implied_timescales"],
        kws := [] },
      { calls := ["pyemma.msm.estimate_markov_model", "pyemma.plots.plot_cktest", "msm.cktest"],
        kws := [] },
      { calls := ["mdshare.fetch", "mdshare.fetch", "pyemma.coordinates.featurizer", "feat.add_backbone_torsions", "pyemma.coordinates.load", "pyemma.coordinates.cluster_kmeans", "pyemma.msm.its", "plt.subplots", "pyemma.plots.plot_feature_histograms", "np.concatenate", "scatter", "np.concatenate", "scatter", "set_xlabel", "set_ylabel", "pyemma.plots.plot_implied_timescales", "fig.tight_layout"],
        kws := [] },
      { calls := ["plt.subplots", "enumerate", "pyemma.coordinates.cluster_kmeans", "scatter", "np.concatenate", "scatter", "set_xlabel", "set_ylabel", "set_title", "format", "pyemma.plots.plot_implied_timescales", "pyemma.msm.its", "set_ylim", "fig.tight_layout"],
        kws := [.kwFor] },
      { calls := ["pyemma.msm.estimate_markov_model", "pyemma.plots.plot_cktest", "msm.cktest"],
        kws := [] },
      { calls := ["pyemma.msm.bayesian_markov_model", "pyemma.plots.plot_cktest", "bayesian_msm.cktest"],
        kws := [] },
      { calls := ["pyemma.coordinates.pca", "pyemma.coordinates.cluster_kmeans", "pyemma.msm.its", "plt.subplots", "pyemma.plots.plot_feature_histograms", "np.concatenate", "pca.get_output", "pyemma.plots.plot_feature_histograms", "np.concatenate", "tica.get_output", "set_title", "set_title", "scatter", "np.concatenate", "pca.get_output", "scatter", "set_xlabel", "set_ylabel", "scatter", "np.concatenate", "tica.get_output", "scatter", "set_xlabel", "set_ylabel", "pyemma.plots.plot_implied_timescales", "pyemma.plots.plot_implied_timescales", "set_ylim", "set_ylim", "fig.tight_layout"],
        kws := [] },
      { calls := ["pyemma.coordinates.featurizer", "feat.add_distances", "feat.select_Heavy", "pyemma.coordinates.load", "pyemma.coordinates.pca", "pyemma.coordinates.tica", "pyemma.coordinates.cluster_kmeans", "pyemma.coordinates.cluster_kmeans", "pyemma.msm.its", "pyemma.msm.its", "plt.subplots", "pyemma.plots.plot_feature_histograms", "np.concatenate", "pca.get_output", "pyemma.plots.plot_feature_histograms", "np.concatenate", "tica.get_output", "set_title", "set_title", "scatter", "np.concatenate", "pca.get_output", "scatter", "set_xlabel", "set_ylabel", "scatter", "np.concatenate", "tica.get_output", "scatter", "set_xlabel", "set_ylabel", "pyemma.plots.plot_implied_timescales", "pyemma.plots.plot_implied_timescales", "set_ylim", "set_ylim", "fig.tight_layout"],
        kws := [] },
      { calls := ["pyemma.msm.bayesian_markov_model"],
        kws := [] },
      { calls := ["pyemma.msm.bayesian_markov_model", "pyemma.plots.plot_cktest", "bayesian_msm.cktest"],
        kws := [] },
      { calls := ["mdshare.fetch", "mdshare.fetch", "plt.subplots", "pyemma.plots.plot_feature_histograms", "np.concatenate", "tica.get_output", "pyemma.plots.plot_implied_timescales", "fig.tight_layout"],
        kws := [] },
      { calls := ["mdshare.fetch", "mdshare.fetch", "pyemma.coordinates.featurizer", "feat.add_backbone_torsions", "feat.add_sidechain_torsions", "pyemma.coordinates.load", "pyemma.coordinates.tica", "pyemma.coordinates.cluster_kmeans", "pyemma.msm.its", "plt.subplots", "pyemma.plots.plot_feature_histograms", "np.concatenate", "tica.get_output", "pyemma.plots.plot_implied_timescales", "fig.tight_layout"],
        kws := [] },
      { calls := [],
        kws := [] },
      { calls := ["pyemma.msm.estimate_markov_model"],
        kws := [] },
      { calls := ["msm.timescales", "plt.plot", "plt.xlabel", "plt.ylabel"],
        kws := [] },
      { calls := [],
        kws := [] },
      { calls := ["pyemma.msm.bayesian_markov_model", "pyemma.plots.plot_cktest", "bayesian_msm.cktest"],
        kws := [] },
      { calls := [],
        kws := [] },
      { calls := ["pyemma.msm.bayesian_markov_model", "pyemma.plots.plot_cktest", "bayesian_msm.cktest"],
        kws := [] }
    ] },
  { name := "05 - hidden Markov state models (HMMs)",
    cells := [
      { calls := [],
        kws := [.kwImport, .kwImport, .kwImport, .kwImport, .kwImport] },
      { calls := ["mdshare.fetch", "np.load"],
        kws := [.kwWith] },
      { calls := ["np.asarray", "pyemma.coordinates.assign_to_centers"],
        kws := [] },
      { calls := ["plt.subplots", "scatter", "scatter", "scatter", "scatter", "np.asarray", "ax.set_xlabel", "ax.set_ylabel", "set_title", "set_title", "fig.tight_layout"],
        kws := [.kwFor] },
      { calls := ["range", "plt.subplots", "pyemma.plots.plot_implied_timescales", "pyemma.msm.its", "pyemma.plots.plot_implied_timescales", "pyemma.msm.its", "set_title", "set_title", "fig.tight_layout"],
        kws := [.kwFor] },
      { calls := ["pyemma.msm.estimate_markov_model", "pyemma.msm.estimate_markov_model", "print", "format", "poor_msm.timescales", "print", "format", "good_msm.timescales"],
        kws := [] },
      { calls := ["pyemma.plots.plot_cktest", "poor_msm.cktest"],
        kws := [] },
      { calls := ["pyemma.plots.plot_cktest", "good_msm.cktest"],
        kws := [] },
      { calls := ["plt.subplots", "pyemma.plots.plot_implied_timescales", "pyemma.msm.timescales_hmsm", "pyemma.plots.plot_implied_timescales", "pyemma.msm.timescales_hmsm", "set_title", "set_title", "fig.tight_layout"],
        kws := [] },
      { calls := ["pyemma.msm.estimate_hidden_markov_model", "pyemma.msm.estimate_hidden_markov_model", "print", "format", "poor_hmm.timescales", "print", "format", "good_hmm.timescales"],
        kws := [] },
      { calls := ["pyemma.plots.plot_cktest", "poor_hmm.cktest"],
        kws := [] },
      { calls := ["pyemma.plots.plot_cktest", "good_hmm.cktest"],
        kws := [] },
      { calls := ["np.asarray", "pyemma.coordinates.assign_to_centers", "plt.subplots", "scatter", "scatter", "pyemma.plots.plot_implied_timescales", "pyemma.msm.its", "pyemma.plots.plot_implied_timescales", "pyemma.msm.timescales_hmsm", "set_xlabel", "set_ylabel", "set_title", "set_title", "set_title", "ax.set_ylim", "fig.tight_layout"],
        kws := [.kwFor] },
      { calls := ["pyemma.msm.estimate_hidden_markov_model", "print", "format", "bad_hmm.timescales", "pyemma.plots.plot_cktest", "bad_hmm.cktest"],
        kws := [] },
      { calls := ["pyemma.msm.estimate_markov_model", "print", "format", "bad_msm.timescales", "bad_msm.coarse_grain", "print", "type"],
        kws := [] },
      { calls := ["print", "format", "bad_coarse_msm.timescales", "pyemma.plots.plot_cktest", "bad_coarse_msm.cktest"],
        kws := [] },
      { calls := ["mdshare.fetch", "mdshare.fetch", "pyemma.coordinates.featurizer", "feat.add_backbone_torsions", "pyemma.coordinates.load", "np.concatenate", "pyemma.coordinates.cluster_kmeans", "pyemma.msm.its", "plt.subplots", "pyemma.plots.plot_feature_histograms", "scatter", "scatter", "set_xlabel", "set_ylabel", "pyemma.plots.plot_implied_timescales", "fig.tight_layout"],
        kws := [] },
      { calls := ["pyemma.msm.bayesian_markov_model", "pyemma.plots.plot_cktest", "bayesian_msm.cktest"],
        kws := [] },
      { calls := ["bayesian_msm.coarse_grain", "print", "format", "print", "format"],
        kws := [] },
      { calls := ["plt.subplots", "scatter", "np.concatenate", "fig.colorbar", "cb.set_label", "scatter", "np.concatenate", "mpl.cm.get_cmap", "mpl.colors.BoundaryNorm", "np.arange", "fig.colorbar", "cb.set_label", "cb.set_ticks", "np.arange", "ax.set_xlabel", "ax.set_ylabel", "fig.tight_layout"],
        kws := [.kwFor] },
      { calls := ["pyemma.coordinates.cluster_regspace", "pyemma.msm.its", "plt.subplots", "pyemma.plots.plot_feature_histograms", "scatter", "np.concatenate", "scatter", "set_xlabel", "set_ylabel", "pyemma.plots.plot_implied_timescales", "fig.tight_layout"],
        kws := [] },
      { calls := ["plt.subplots", "pyemma.plots.plot_implied_timescales", "pyemma.msm.timescales_hmsm", "pyemma.plots.plot_implied_timescales", "pyemma.msm.timescales_hmsm", "fig.tight_layout"],
        kws := [] },
      { calls := ["pyemma.msm.bayesian_hidden_markov_model", "pyemma.plots.plot_cktest", "hmm_4.cktest"],
        kws := [] },
      { calls := ["pyemma.msm.bayesian_hidden_markov_model", "pyemma.plots.plot_cktest", "hmm_6.cktest"],
        kws := [] },
      { calls := ["plt.subplots", "zip", "ax.scatter", "np.concatenate", "mpl.cm.get_cmap", "mpl.colors.BoundaryNorm", "np.arange", "ax.set_xlabel", "ax.set_ylabel", "ax.set_title", "format", "fig.colorbar", "cb.set_label", "cb.set_ticks", "np.arange", "fig.tight_layout"],
        kws := [.kwFor] },
      { calls := ["np.concatenate", "tica.get_output", "pyemma.msm.its", "plt.subplots", "pyemma.plots.plot_feature_histograms", "scatter", "scatter", "set_xlabel", "set_ylabel", "pyemma.plots.plot_implied_timescales", "fig.tight_layout"],
        kws := [] },
      { calls := ["pyemma.coordinates.featurizer", "feat.add_distances", "feat.select_Heavy", "pyemma.coordinates.load", "pyemma.coordinates.tica", "np.concatenate", "tica.get_output", "pyemma.coordinates.cluster_kmeans", "pyemma.msm.its", "plt.subplots", "pyemma.plots.plot_feature_histograms", "scatter", "scatter", "set_xlabel", "set_ylabel", "pyemma.plots.plot_implied_timescales", "fig.tight_layout"],
        kws := [] },
      { calls := [],
        kws := [] },
      { calls := ["pyemma.plots.plot_implied_timescales", "pyemma.msm.timescales_hmsm"],
        kws := [] },
      { calls := [],
        kws := [] },
      { calls := ["pyemma.msm.bayesian_hidden_markov_model", "pyemma.plots.plot_cktest", "hmm.cktest"],
        kws := [] },
      { calls := [],
        kws := [] },
      { calls := ["ax.scatter", "np.concatenate", "mpl.cm.get_cmap", "mpl.colors.BoundaryNorm", "np.arange", "fig.colorbar", "cb.set_label", "cb.set_ticks", "np.arange", "ax.set_xlabel", "format", "ax.set_ylabel", "format", "plt.subplots", "draw_panel", "draw_panel", "draw_panel", "set_axis_off", "fig.tight_layout"],
        kws := [.kwDef] }
    ] },
  { name := "07 - common problems & bad data situations",
    cells := [
      { calls := [],
        kws := [.kwImport, .kwImport, .kwImport, .kwImport] },
      { calls := ["mdshare.fetch", "np.load", "pyemma.coordinates.tica", "get_output"],
        kws := [.kwWith] },
      { calls := ["plt.subplots", "enumerate", "ax.hist", "format", "ax.get_ylim", "ax.get_xlim", "enumerate", "ax.plot", "min", "len", "np.linspace", "min", "len", "format", "format", "ax.plot", "min", "len", "np.linspace", "min", "len", "format", "ax.annotate", "dict", "ax.text", "ax.set_xlabel", "ax.set_ylabel", "ax.legend"],
        kws := [.kwDef, .kwIf, .kwFor, .kwFor, .kwIf] },
      { calls := ["plt.subplots", "pyemma.coordinates.cluster_regspace", "plot_1D_histogram_trajectories", "range", "pyemma.msm.its", "pyemma.plots.plot_implied_timescales", "fig.tight_layout"],
        kws := [.kwFor] },
      { calls := ["mdshare.fetch", "np.load"],
        kws := [.kwFor] },
      { calls := ["plot_1D_histogram_trajectories"],
        kws := [] },
      { calls := ["pyemma.coordinates.cluster_regspace", "pyemma.coordinates.cluster_regspace", "print"],
        kws := [] },
      { calls := ["plt.subplots", "zip", "plot_1D_histogram_trajectories", "pyemma.msm.its", "pyemma.plots.plot_implied_timescales", "fig.tight_layout"],
        kws := [.kwFor] },
      { calls := ["pyemma.msm.estimate_markov_model", "plt.subplots", "ax.plot", "msm.eigenvectors_right", "ax.twinx", "tx.hist", "np.concatenate", "tx.set_yticklabels", "tx.set_yticks", "fig.legend", "fig.tight_layout"],
        kws := [] },
      { calls := ["print"],
        kws := [] },
      { calls := ["mdshare.fetch", "np.load"],
        kws := [.kwFor] },
      { calls := ["plot_1D_histogram_trajectories"],
        kws := [] },
      { calls := ["pyemma.coordinates.cluster_regspace", "pyemma.coordinates.cluster_regspace", "print"],
        kws := [] },
      { calls := ["plt.subplots", "zip", "plot_1D_histogram_trajectories", "pyemma.msm.its", "pyemma.plots.plot_implied_timescales", "fig.tight_layout"],
        kws := [.kwFor] },
      { calls := ["pyemma.msm.estimate_markov_model", "msm.pcca", "np.argsort", "plt.subplots", "plot", "msm.eigenvectors_right", "set_title", "enumerate", "step", "format", "set_title", "step", "set_title", "_ax.twinx", "tx.hist", "np.concatenate", "tx.set_yticklabels", "tx.set_yticks", "fig.legend", "fig.tight_layout"],
        kws := [.kwFor, .kwFor] },
      { calls := ["msm.coarse_grain"],
        kws := [] },
      { calls := ["pyemma.msm.timescales_hmsm", "pyemma.plots.plot_implied_timescales"],
        kws := [] },
      { calls := ["mdshare.fetch", "mdshare.fetch", "pyemma.coordinates.featurizer", "feat.add_all", "pyemma.coordinates.load"],
        kws := [] },
      { calls := ["pyemma.coordinates.tica", "tica.get_output"],
        kws := [] },
      { calls := ["pyemma.plots.plot_free_energy", "np.concatenate"],
        kws := [] },
      { calls := ["pyemma.coordinates.cluster_kmeans"],
        kws := [] },
      { calls := ["pyemma.msm.its", "pyemma.plots.plot_implied_timescales"],
        kws := [] },
      { calls := ["pyemma.msm.estimate_markov_model", "msm.pcca"],
        kws := [] },
      { calls := ["plt.scatter", "np.concatenate", "np.concatenate"],
        kws := [.kwFor, .kwFor] },
      { calls := ["pyemma.plots.plot_cktest", "msm.cktest"],
        kws := [] },
      { calls := ["plt.subplots", "enumerate", "ax.plot", "range", "len", "ax.scatter", "range", "len", "ax_yticks_labels.append", "ax.set_yticks", "ax.set_yticklabels", "str", "ax.set_ylabel", "ax.set_xlabel", "format", "fig.tight_layout"],
        kws := [.kwFor, .kwFor, .kwFor] },
      { calls := ["plt.subplots", "enumerate", "enumerate", "plot", "ax.set_xlabel", "format", "enumerate", "ax.set_ylabel", "format", "enumerate", "ax.set_title", "format", "fig.tight_layout"],
        kws := [.kwFor, .kwFor, .kwFor, .kwFor, .kwFor] },
      { calls := ["pyemma.coordinates.tica", "tica.get_output", "pyemma.coordinates.cluster_kmeans"],
        kws := [] },
      { calls := ["pyemma.plots.plot_free_energy", "np.concatenate"],
        kws := [] },
      { calls := ["pyemma.msm.estimate_markov_model", "msm.pcca"],
        kws := [] },
      { calls := [],
        kws := [.kwFor] },
      { calls := ["plt.scatter", "np.concatenate", "np.concatenate"],
        kws := [.kwFor] },
      { calls := ["plt.subplots", "enumerate", "ax.plot", "range", "len", "ax.scatter", "range", "len", "ax_yticks_labels.append", "ax.set_yticks", "ax.set_yticklabels", "str", "ax.set_ylabel", "ax.set_xlabel", "format", "fig.tight_layout"],
        kws := [.kwFor, .kwFor, .kwFor] }
    ] },
  { name := "06 - Expectations and Observables",
    cells := [
      { calls := [],
        kws := [.kwImport, .kwImport, .kwImport, .kwImport] },
      { calls := ["mdshare.fetch", "np.load", "pyemma.coordinates.cluster_kmeans", "pyemma.msm.its", "plt.subplots", "pyemma.plots.plot_feature_histograms", "scatter", "scatter", "set_xlabel", "set_ylabel", "pyemma.plots.plot_implied_timescales", "fig.tight_layout"],
        kws := [.kwWith] },
      { calls := ["pyemma.msm.estimate_markov_model", "pyemma.msm.bayesian_markov_model", "print", "format", "print", "format", "pyemma.plots.plot_cktest", "msm.cktest"],
        kws := [] },
      { calls := ["msm.pcca", "observable"],
        kws := [.kwDef, .kwReturn] },
      { calls := ["plt.subplots", "ax.hist", "enumerate", "np.where", "np.isin", "ax.hist", "format", "ax.legend", "ax.set_xlabel", "ax.set_ylabel", "ax.set_xlim", "fig.tight_layout"],
        kws := [.kwFor] },
      { calls := ["np.array", "mean", "range"],
        kws := [.kwFor] },
      { calls := ["plt.subplots", "pyemma.plots.scatter_contour", "set_title", "pyemma.plots.scatter_contour", "set_title", "fig.tight_layout"],
        kws := [] },
      { calls := ["print", "format", "msm.expectation"],
        kws := [] },
      { calls := ["bayesian_msm.sample_mean", "print", "format", "bayesian_msm.sample_conf", "print", "format"],
        kws := [] },
      { calls := ["np.array", "mean", "range", "print", "format", "print", "format", "print", "format", "is_within"],
        kws := [.kwDef, .kwReturn, .kwFor, .kwDef, .kwReturn, .kwIf] },
      { calls := ["new_observable", "np.array", "mean", "range", "msm.expectation", "bayesian_msm.sample_mean", "bayesian_msm.sample_conf", "print", "format", "print", "format", "print", "format", "is_within"],
        kws := [.kwDef, .kwReturn, .kwFor, .kwDef, .kwReturn, .kwIf] },
      { calls := ["mdshare.fetch", "mdshare.fetch", "pyemma.coordinates.featurizer", "feat.add_backbone_torsions", "pyemma.coordinates.load", "pyemma.coordinates.cluster_kmeans", "pyemma.msm.its", "plt.subplots", "pyemma.plots.plot_feature_histograms", "np.concatenate", "scatter", "np.concatenate", "scatter", "set_xlabel", "set_ylabel", "pyemma.plots.plot_implied_timescales", "fig.tight_layout"],
        kws := [] },
      { calls := ["pyemma.msm.estimate_markov_model", "print", "format", "print", "format", "pyemma.msm.bayesian_markov_model", "pyemma.plots.plot_cktest", "bayesian_msm.cktest"],
        kws := [] },
      { calls := ["pyemma.coordinates.featurizer", "feat2.add_dihedrals", "print", "format", "feat2.topology.atom", "pyemma.coordinates.load", "np.cos", "np.cos", "Karplus", "t.ravel", "np.array", "mean", "range", "zip", "np.hstack", "np.hstack"],
        kws := [.kwFor, .kwDef, .kwReturn, .kwFor, .kwFor, .kwFor] },
      { calls := ["plt.subplots", "pyemma.plots.scatter_contour", "set_title", "set_xlabel", "set_ylabel", "pyemma.plots.scatter_contour", "set_title", "set_xlabel", "set_ylabel", "fig.tight_layout"],
        kws := [] },
      { calls := ["print", "format"],
        kws := [] },
      { calls := ["msm.expectation", "print", "format"],
        kws := [] },
      { calls := ["print", "format"],
        kws := [] },
      { calls := ["bayesian_msm.sample_mean", "bayesian_msm.sample_std", "print", "format"],
        kws := [] },
      { calls := ["mdshare.fetch", "mdshare.fetch", "pyemma.coordinates.featurizer", "feat.add_backbone_torsions", "feat.add_sidechain_torsions", "pyemma.coordinates.load", "pyemma.coordinates.tica", "np.concatenate", "tica.get_output", "pyemma.coordinates.cluster_kmeans", "pyemma.msm.its", "plt.subplots", "pyemma.plots.plot_feature_histograms", "pyemma.plots.plot_implied_timescales", "fig.tight_layout"],
        kws := [] },
      { calls := ["pyemma.msm.estimate_markov_model", "print", "format", "print", "format", "pyemma.msm.bayesian_markov_model"],
        kws := [] },
      { calls := ["pyemma.plots.plot_cktest", "bayesian_msm.cktest", "msm.coarse_grain"],
        kws := [] },
      { calls := [],
        kws := [.kwFrom, .kwImport] },
      { calls := ["pyemma.coordinates.save_traj", "msm.sample_by_state"],
        kws := [.kwFor] },
      { calls := ["shrake_rupley", "mean"],
        kws := [.kwFor] },
      { calls := ["msm.correlation", "bayesian_msm.sample_mean", "np.array", "bayesian_msm.sample_conf", "np.array", "plt.subplots", "ax.plot", "ax.plot", "ax.fill_between", "ax.semilogx", "ax.set_xlim", "ax.set_xlabel", "ax.set_ylabel", "ax.legend", "fig.tight_layout"],
        kws := [] },
      { calls := ["msm.relaxation", "bayesian_msm.sample_mean", "np.array", "bayesian_msm.sample_conf", "np.array", "plt.subplots", "ax.semilogx", "ax.plot", "ax.fill_between", "ax.semilogx", "ax.set_xlim", "ax.set_xlabel", "ax.set_ylabel", "ax.legend", "fig.tight_layout"],
        kws := [] },
      { calls := [],
        kws := [] },
      { calls := ["msm.relaxation", "bayesian_msm.sample_mean", "np.array", "bayesian_msm.sample_conf", "np.array", "plt.subplots", "ax.semilogx", "ax.plot", "ax.fill_between", "ax.semilogx", "ax.set_xlim", "ax.set_xlabel", "ax.set_ylabel", "ax.legend", "fig.tight_layout"],
        kws := [] },
      { calls := ["dot", "print", "format", "new_observable"],
        kws := [.kwDef, .kwReturn] },
      { calls := ["dot", "msm.fingerprint_correlation", "print", "format", "new_observable"],
        kws := [.kwDef, .kwReturn] }
    ] },
  { name := "02 - Dimension reduction and discretization",
    cells := [
      { calls := [],
        kws := [.kwImport, .kwImport, .kwImport, .kwImport] },
      { calls := ["mdshare.fetch", "np.load", "plt.subplots", "pyemma.plots.plot_feature_histograms", "enumerate", "plot", "np.linspace", "annotate", "format", "dict", "scatter", "set_xlabel", "set_ylabel", "fig.tight_layout"],
        kws := [.kwWith, .kwFor] },
      { calls := ["pyemma.coordinates.cluster_kmeans"],
        kws := [] },
      { calls := ["pyemma.coordinates.cluster_regspace"],
        kws := [] },
      { calls := ["plt.subplots", "zip", "ax.scatter", "ax.scatter", "ax.set_xlabel", "ax.set_ylabel", "fig.tight_layout"],
        kws := [.kwFor] },
      { calls := ["print", "print"],
        kws := [] },
      { calls := ["pyemma.coordinates.pca", "pca.get_output", "print"],
        kws := [] },
      { calls := ["pyemma.coordinates.tica", "tica.get_output", "print"],
        kws := [] },
      { calls := ["plt.subplots", "pyemma.plots.plot_feature_histograms", "np.concatenate", "scatter", "plot", "abs", "abs", "plot", "abs", "abs", "set_xlabel", "set_ylabel", "legend", "fig.tight_layout"],
        kws := [] },
      { calls := ["plt.subplots", "ax.plot", "ax.plot", "ax.set_xlabel", "ax.set_ylabel", "ax.legend", "fig.tight_layout"],
        kws := [] },
      { calls := ["np.linspace", "np.min", "np.max", "pyemma.coordinates.assign_to_centers", "centers_pca.reshape", "print"],
        kws := [] },
      { calls := ["np.linspace", "np.min", "np.max", "pyemma.coordinates.assign_to_centers", "centers_tica.reshape", "print"],
        kws := [] },
      { calls := ["mdshare.fetch", "mdshare.fetch", "pyemma.coordinates.featurizer", "feat.add_backbone_torsions", "pyemma.coordinates.load", "plt.subplots", "pyemma.plots.plot_feature_histograms", "np.concatenate", "scatter", "np.concatenate", "set_xlabel", "set_ylabel", "fig.tight_layout"],
        kws := [] },
      { calls := ["pyemma.coordinates.cluster_kmeans", "pyemma.coordinates.cluster_regspace", "plt.subplots", "zip", "ax.scatter", "np.concatenate", "ax.scatter", "ax.set_xlabel", "ax.set_ylabel", "fig.tight_layout"],
        kws := [.kwFor] },
      { calls := ["pyemma.coordinates.featurizer", "pyemma.coordinates.load", "print", "format", "feat.dimension", "plt.subplots", "pyemma.plots.plot_feature_histograms", "np.concatenate", "feat.describe", "fig.tight_layout"],
        kws := [] },
      { calls := ["pyemma.coordinates.featurizer", "feat.add_selection", "feat.select_Heavy", "pyemma.coordinates.load", "print", "format", "feat.dimension", "plt.subplots", "pyemma.plots.plot_feature_histograms", "np.concatenate", "feat.describe", "fig.tight_layout"],
        kws := [] },
      { calls := ["pyemma.coordinates.pca", "np.concatenate", "pca.get_output", "plt.subplots", "pyemma.plots.plot_feature_histograms", "format", "range", "pca.dimension", "scatter", "pyemma.plots.plot_free_energy", "ax.set_xlabel", "ax.set_ylabel", "fig.tight_layout"],
        kws := [.kwFor, .kwFor] },
      { calls := ["np.concatenate", "tica.get_output", "plt.subplots", "pyemma.plots.plot_feature_histograms", "format", "range", "tica.dimension", "scatter", "pyemma.plots.plot_free_energy", "ax.set_xlabel", "ax.set_ylabel", "fig.tight_layout"],
        kws := [.kwFor, .kwFor] },
      { calls := ["pyemma.coordinates.tica", "np.concatenate", "tica.get_output", "plt.subplots", "pyemma.plots.plot_feature_histograms", "format", "range", "tica.dimension", "scatter", "pyemma.plots.plot_free_energy", "ax.set_xlabel", "ax.set_ylabel", "fig.tight_layout"],
        kws := [.kwFor, .kwFor] },
      { calls := ["pyemma.coordinates.cluster_kmeans", "plt.subplots", "pyemma.plots.plot_feature_histograms", "format", "range", "pca.dimension", "scatter", "scatter", "set_xlabel", "set_ylabel", "fig.tight_layout"],
        kws := [.kwFor] },
      { calls := ["pyemma.coordinates.pca", "np.concatenate", "pca.get_output", "pyemma.coordinates.cluster_kmeans", "plt.subplots", "pyemma.plots.plot_feature_histograms", "format", "range", "pca.dimension", "scatter", "scatter", "set_xlabel", "set_ylabel", "fig.tight_layout"],
        kws := [.kwFor] },
      { calls := ["plt.subplots", "pyemma.plots.plot_feature_histograms", "format", "range", "tica.dimension", "scatter", "scatter", "set_xlabel", "set_ylabel", "fig.tight_layout"],
        kws := [.kwFor] },
      { calls := ["pyemma.coordinates.tica", "np.concatenate", "tica.get_output", "pyemma.coordinates.cluster_kmeans", "plt.subplots", "pyemma.plots.plot_feature_histograms", "format", "range", "tica.dimension", "scatter", "scatter", "set_xlabel", "set_ylabel", "fig.tight_layout"],
        kws := [.kwFor] },
      { calls := ["mdshare.fetch", "mdshare.fetch", "pyemma.coordinates.load", "np.concatenate", "plt.subplots", "pyemma.plots.plot_feature_histograms", "feat.describe", "fig.tight_layout"],
        kws := [] },
      { calls := ["mdshare.fetch", "mdshare.fetch", "pyemma.coordinates.featurizer", "feat.add_backbone_torsions", "feat.add_sidechain_torsions", "pyemma.coordinates.load", "np.concatenate", "plt.subplots", "pyemma.plots.plot_feature_histograms", "feat.describe", "fig.tight_layout"],
        kws := [] },
      { calls := ["np.concatenate", "pca.get_output", "plt.subplots", "pyemma.plots.plot_feature_histograms", "format", "range", "pca.dimension", "scatter", "pyemma.plots.plot_free_energy", "ax.set_xlabel", "ax.set_ylabel", "fig.tight_layout"],
        kws := [.kwFor, .kwFor] },
      { calls := ["pyemma.coordinates.pca", "np.concatenate", "pca.get_output", "plt.subplots", "pyemma.plots.plot_feature_histograms", "format", "range", "pca.dimension", "scatter", "pyemma.plots.plot_free_energy", "ax.set_xlabel", "ax.set_ylabel", "fig.tight_layout"],
        kws := [.kwFor, .kwFor] },
      { calls := ["plt.subplots", "len", "len", "enumerate", "pyemma.plots.plot_feature_histograms", "format", "range", "tica.dimension", "set_title", "format", "scatter", "pyemma.plots.plot_free_energy", "ax.set_xlabel", "ax.set_ylabel", "fig.tight_layout"],
        kws := [.kwFor, .kwFor, .kwFor] },
      { calls := ["plt.subplots", "len", "len", "enumerate", "pyemma.coordinates.tica", "np.concatenate", "tica.get_output", "pyemma.plots.plot_feature_histograms", "format", "range", "tica.dimension", "set_title", "format", "scatter", "pyemma.plots.plot_free_energy", "ax.set_xlabel", "ax.set_ylabel", "fig.tight_layout"],
        kws := [.kwFor, .kwFor, .kwFor] },
      { calls := ["np.concatenate", "pca.get_output", "plt.subplots", "pyemma.plots.plot_feature_histograms", "format", "range", "pca.dimension", "zip", "ax.scatter", "ax.scatter", "ax.set_xlabel", "format", "ax.set_ylabel", "format", "fig.tight_layout"],
        kws := [.kwFor, .kwFor] },
      { calls := ["pyemma.coordinates.pca", "np.concatenate", "pca.get_output", "pyemma.coordinates.cluster_kmeans", "plt.subplots", "pyemma.plots.plot_feature_histograms", "format", "range", "pca.dimension", "zip", "ax.scatter", "ax.scatter", "ax.set_xlabel", "format", "ax.set_ylabel", "format", "fig.tight_layout"],
        kws := [.kwFor, .kwFor] },
      { calls := ["plt.subplots", "pyemma.plots.plot_feature_histograms", "format", "range", "tica.dimension", "zip", "ax.scatter", "ax.scatter", "ax.set_xlabel", "format", "ax.set_ylabel", "format", "fig.tight_layout"],
        kws := [.kwFor, .kwFor] },
      { calls := ["pyemma.coordinates.tica", "np.concatenate", "tica.get_output", "pyemma.coordinates.cluster_kmeans", "plt.subplots", "pyemma.plots.plot_feature_histograms", "format", "range", "tica.dimension", "zip", "ax.scatter", "ax.scatter", "ax.set_xlabel", "format", "ax.set_ylabel", "format", "fig.tight_layout"],
        kws := [.kwFor, .kwFor] }
    ] },
  { name := "VAMP score based feature selection",
    cells := [
      { calls := [],
        kws := [.kwImport, .kwImport, .kwImport, .kwImport] },
      { calls := ["mdshare.fetch", "np.load"],
        kws := [.kwWith] },
      { calls := ["pyemma.plots.plot_free_energy"],
        kws := [] },
      { calls := ["pyemma.coordinates.vamp", "vamp.score"],
        kws := [] },
      { calls := ["pyemma.coordinates.vamp", "vamp.score"],
        kws := [] },
      { calls := ["pyemma.coordinates.vamp", "vamp.score"],
        kws := [] },
      { calls := ["print"],
        kws := [] },
      { calls := ["mdshare.fetch", "mdshare.fetch", "print", "print"],
        kws := [] },
      { calls := [],
        kws := [] },
      { calls := ["pyemma.coordinates.source", "reader_rmsd.featurizer.add_minrmsd_to_ref", "pyemma.coordinates.vamp", "vamp_minRMSD.score"],
        kws := [] },
      { calls := ["pyemma.coordinates.source", "reader_bt.featurizer.add_backbone_torsions", "pyemma.coordinates.vamp", "vamp_bt.score"],
        kws := [] },
      { calls := ["pyemma.plots.plot_feature_histograms", "np.concatenate", "reader_rmsd.get_output", "ax.set_title"],
        kws := [] },
      { calls := ["pyemma.coordinates.cluster_kmeans"],
        kws := [] },
      { calls := ["pyemma.msm.its", "pyemma.plots.plot_implied_timescales", "ax.set_title"],
        kws := [] },
      { calls := ["pyemma.msm.estimate_markov_model", "msm_rmsd.score"],
        kws := [] },
      { calls := ["pyemma.coordinates.cluster_kmeans"],
        kws := [] },
      { calls := ["pyemma.msm.its", "pyemma.plots.plot_implied_timescales"],
        kws := [] },
      { calls := ["pyemma.msm.estimate_markov_model", "msm_bt.score"],
        kws := [] },
      { calls := ["mdshare.fetch", "mdshare.fetch", "pyemma.coordinates.featurizer", "pyemma.coordinates.source"],
        kws := [] },
      { calls := ["mdshare.fetch", "mdshare.fetch", "pyemma.coordinates.featurizer", "pyemma.coordinates.source", "getattr", "print", "feat.dimension", "pyemma.coordinates.vamp", "min", "feat.dimension", "v.score", "feat.pairs", "np.arange", "dict", "feat.topology.select", "print", "test_feature", "plt.subplots", "enumerate", "results.items", "ax.bar", "ax.legend", "ax.set_ylabel", "ax.set_xticks", "ax.set_title", "format"],
        kws := [.kwDef, .kwReturn, .kwFor, .kwFor] },
      { calls := ["pyemma.coordinates.vamp", "get_output", "cl.estimate", "cl.assign", "pyemma.msm.estimate_markov_model", "min", "results_msm.append", "pyemma.coordinates.cluster_kmeans", "score_discretization", "np.random.randint", "score_discretization", "plt.subplots", "enumerate", "scores_cv.mean", "ax.errorbar", "scores_cv.std", "ax.scatter", "ax.set_xlabel", "ax.set_ylabel", "ax.set_title", "ax.legend"],
        kws := [.kwDef, .kwIf, .kwFor, .kwFor, .kwIf, .kwIf] },
      { calls := ["feat.add_distances", "pyemma.coordinates.vamp", "get_output", "cl.estimate", "cl.assign", "pyemma.msm.estimate_markov_model", "min", "msm.score_cv", "msm.score", "results_msm.append", "pyemma.coordinates.cluster_kmeans", "score_discretization", "np.random.randint", "score_discretization", "plt.subplots", "enumerate", "scores_cv.mean", "ax.errorbar", "scores_cv.std", "ax.scatter", "ax.set_xlabel", "ax.set_ylabel", "ax.set_title", "ax.legend"],
        kws := [.kwDef, .kwIf, .kwFor, .kwFor, .kwIf, .kwIf] }
    ] },
  { name := "01 - Data-I/O and featurization",
    cells := [
      { calls := [],
        kws := [.kwImport, .kwImport, .kwImport, .kwImport] },
      { calls := ["mdshare.fetch", "np.load", "print"],
        kws := [.kwWith] },
      { calls := ["pyemma.plots.plot_feature_histograms"],
        kws := [] },
      { calls := ["pyemma.plots.plot_free_energy", "ax.set_xlabel", "ax.set_ylabel", "fig.tight_layout"],
        kws := [] },
      { calls := ["mdshare.fetch", "mdshare.fetch", "print", "print"],
        kws := [] },
      { calls := ["nglview.show_mdtraj", "mdtraj.load", "os.path.join", "TrajectoryPlayer", "Timer", "start"],
        kws := [.kwImport, .kwImport, .kwFrom, .kwImport, .kwImport, .kwFrom, .kwImport, .kwDef] },
      { calls := ["pyemma.coordinates.featurizer"],
        kws := [] },
      { calls := ["feat.add_backbone_torsions"],
        kws := [] },
      { calls := ["print", "feat.describe"],
        kws := [] },
      { calls := ["pyemma.coordinates.load", "print"],
        kws := [] },
      { calls := ["pyemma.plots.plot_feature_histograms", "np.concatenate"],
        kws := [] },
      { calls := ["pyemma.plots.plot_free_energy", "np.concatenate", "ax.set_xlabel", "ax.set_ylabel", "fig.tight_layout"],
        kws := [] },
      { calls := ["pyemma.coordinates.featurizer", "feat.add_selection", "feat.select_Heavy", "pyemma.coordinates.load", "feat.describe", "print"],
        kws := [] },
      { calls := ["plt.subplots", "pyemma.plots.plot_feature_histograms", "np.concatenate", "fig.tight_layout"],
        kws := [] },
      { calls := ["print"],
        kws := [] },
      { calls := ["pyemma.coordinates.source", "print"],
        kws := [] },
      { calls := ["data.get_output", "print"],
        kws := [] },
      { calls := ["plt.subplots", "pyemma.plots.plot_feature_histograms", "np.concatenate", "fig.tight_layout"],
        kws := [] },
      { calls := ["pyemma.coordinates.featurizer", "pyemma.coordinates.load", "plt.subplots", "pyemma.plots.plot_feature_histograms", "np.concatenate", "feat.describe", "fig.tight_layout"],
        kws := [] },
      { calls := ["pyemma.coordinates.featurizer", "feat.add_distances", "feat.select_Heavy", "pyemma.coordinates.load", "plt.subplots", "pyemma.plots.plot_feature_histograms", "np.concatenate", "feat.describe", "fig.tight_layout"],
        kws := [] },
      { calls := ["mdshare.fetch", "mdshare.fetch"],
        kws := [] },
      { calls := ["nglview.show_mdtraj", "mdtraj.load", "os.path.join", "TrajectoryPlayer", "widget.add_ball_and_stick", "Timer", "start"],
        kws := [.kwDef] },
      { calls := ["pyemma.coordinates.featurizer", "feat.add_backbone_torsions", "feat.add_sidechain_torsions", "pyemma.coordinates.load", "np.concatenate", "feat.describe", "print"],
        kws := [] },
      { calls := ["plt.subplots", "pyemma.plots.plot_feature_histograms", "fig.tight_layout"],
        kws := [] },
      { calls := ["pyemma.coordinates.featurizer", "pyemma.coordinates.load", "np.concatenate", "plt.subplots", "pyemma.plots.plot_feature_histograms", "feat.describe", "fig.tight_layout"],
        kws := [] },
      { calls := ["pyemma.coordinates.featurizer", "feat.add_distances_ca", "pyemma.coordinates.load", "np.concatenate", "plt.subplots", "pyemma.plots.plot_feature_histograms", "feat.describe", "fig.tight_layout"],
        kws := [] },
      { calls := ["pyemma.coordinates.featurizer", "pyemma.coordinates.load", "np.concatenate", "plt.subplots", "pyemma.plots.plot_feature_histograms", "feat.describe", "fig.tight_layout"],
        kws := [] },
      { calls := ["pyemma.coordinates.featurizer", "feat.add_residue_mindist", "pyemma.coordinates.load", "np.concatenate", "plt.subplots", "pyemma.plots.plot_feature_histograms", "feat.describe", "fig.tight_layout"],
        kws := [] },
      { calls := ["pyemma.coordinates.featurizer", "pyemma.coordinates.load", "np.concatenate", "plt.subplots", "pyemma.plots.plot_feature_histograms", "feat.describe", "fig.tight_layout"],
        kws := [] },
      { calls := ["pyemma.coordinates.featurizer", "feat.add_selection", "feat.select_Backbone", "pyemma.coordinates.load", "np.concatenate", "plt.subplots", "pyemma.plots.plot_feature_histograms", "feat.describe", "fig.tight_layout"],
        kws := [] },
      { calls := ["pyemma.coordinates.featurizer", "pyemma.coordinates.load", "np.concatenate", "plt.subplots", "pyemma.plots.plot_feature_histograms", "feat.describe", "fig.tight_layout"],
        kws := [] },
      { calls := ["pyemma.coordinates.featurizer", "feat.add_selection", "feat.select_Ca", "pyemma.coordinates.load", "np.concatenate", "plt.subplots", "pyemma.plots.plot_feature_histograms", "feat.describe", "fig.tight_layout"],
        kws := [] }
    ] }
]

def fetchCalls : List FetchCall := [
  { fname := "hmm-doublewell-2d-100k.npz", wdir := "data" },
  { fname := "alanine-dipeptide-nowater.pdb", wdir := "data" },
  { fname := "alanine-dipeptide-*-250ns-nowater.dcd", wdir := "data" },
  { fname := "pentapeptide-impl-solv.pdb", wdir := "data" },
  { fname := "pentapeptide-*-500ns-impl-solv.xtc", wdir := "data" },
  { fname := "pentapeptide-impl-solv.pdb", wdir := "data" },
  { fname := "pentapeptide-*-500ns-impl-solv.xtc", wdir := "data" },
  { fname := "hmm-doublewell-2d-100k.npz", wdir := "data" },
  { fname := "alanine-dipeptide-nowater.pdb", wdir := "data" },
  { fname := "alanine-dipeptide-*-250ns-nowater.dcd", wdir := "data" },
  { fname := "hmm-doublewell-2d-100k.npz", wdir := "data" },
  { fname := "doublewell_oneway.npy", wdir := "data" },
  { fname := "doublewell_disconnected.npy", wdir := "data" },
  { fname := "alanine-dipeptide-nowater.pdb", wdir := "data" },
  { fname := "alanine-dipeptide-*-250ns-nowater.dcd", wdir := "data" },
  { fname := "hmm-doublewell-2d-100k.npz", wdir := "data" },
  { fname := "alanine-dipeptide-nowater.pdb", wdir := "data" },
  { fname := "alanine-dipeptide-*-250ns-nowater.dcd", wdir := "data" },
  { fname := "pentapeptide-impl-solv.pdb", wdir := "data" },
  { fname := "pentapeptide-*-500ns-impl-solv.xtc", wdir := "data" },
  { fname := "hmm-doublewell-2d-100k.npz", wdir := "data" },
  { fname := "alanine-dipeptide-nowater.pdb", wdir := "data" },
  { fname := "alanine-dipeptide-*-250ns-nowater.dcd", wdir := "data" },
  { fname := "pentapeptide-impl-solv.pdb", wdir := "data" },
  { fname := "pentapeptide-*-500ns-impl-solv.xtc", wdir := "data" },
  { fname := "pentapeptide-impl-solv.pdb", wdir := "data" },
  { fname := "pentapeptide-*-500ns-impl-solv.xtc", wdir := "data" },
  { fname := "hmm-doublewell-2d-100k.npz", wdir := "data" },
  { fname := "alanine-dipeptide-nowater.pdb", wdir := "data" },
  { fname := "alanine-dipeptide-*-250ns-nowater.dcd", wdir := "data" },
  { fname := "pentapeptide-impl-solv.pdb", wdir := "data" },
  { fname := "pentapeptide-*-500ns-impl-solv.xtc", wdir := "data" },
  { fname := "pentapeptide-impl-solv.pdb", wdir := "data" },
  { fname := "pentapeptide-*-500ns-impl-solv.xtc", wdir := "data" },
  { fname := "hmm-doublewell-2d-100k.npz", wdir := "data" },
  { fname := "alanine-dipeptide-nowater.pdb", wdir := "data" },
  { fname := "alanine-dipeptide-*-250ns-nowater.dcd", wdir := "data" },
  { fname := "pentapeptide-impl-solv.pdb", wdir := "data" },
  { fname := "pentapeptide-*-500ns-impl-solv.xtc", wdir := "data" },
]
/-- The only `save_traj` call in the repository, from the expectations and
observables notebook:
`pyemma.coordinates.save_traj(files, smpl, outfile=None, top=pdb)`. -/
def saveTrajCalls : List SaveTrajCall :=
  [{ inputArg := "files", indexesArg := "smpl", outfile := none, topArg := "pdb" }]

/-- `listStartsWith p s` is true when `p` is an initial segment of `s`. -/
def listStartsWith (p s : List Char) : Bool :=
  p == s.take p.length

/-- Naive substring test on character lists. -/
def listHasSub (p : List Char) : List Char → Bool
  | [] => p == []
  | c :: t => listStartsWith p (c :: t) || listHasSub p t

/-- `strSuffix p s` is true when the string `p` is a suffix of `s`. -/
def strSuffix (p s : String) : Bool :=
  p.data == s.data.drop (s.data.length - p.data.length)

/-- A call-site string invokes the named function or method: either the callee
path is the name itself, or it ends in `.name`. -/
def callInvokes (m c : String) : Bool :=
  c == m || strSuffix ("." ++ m) c

/-- The named function or method is invoked by some call site of some code
cell of some notebook in the repository. -/
def invoked (m : String) : Bool :=
  repoNotebooks.any fun nb => nb.cells.any fun c => c.calls.any (callInvokes m)

/-- The estimators and methods named in the spec's component list. -/
def componentNames : List String :=
  ["tica", "cluster_kmeans", "cluster_regspace", "pca", "vamp", "its",
   "estimate_markov_model", "bayesian_markov_model",
   "estimate_hidden_markov_model", "score", "score_cv", "cktest",
   "expectation", "correlation", "relaxation", "fingerprint_correlation",
   "pcca", "coarse_grain"]

/-- A code cell contains a try/except block. -/
def cellHasTryExcept (c : NbCell) : Bool :=
  c.kws.contains .kwTry || c.kws.contains .kwExcept

/-- No code cell of any notebook in the repository contains a try/except
block (no raised exception is ever caught). -/
def noTryExceptInRepo : Bool :=
  repoNotebooks.all fun nb => nb.cells.all fun c => !cellHasTryExcept c

/-- Callee names of the standard-library APIs that create or start an
additional thread or process. -/
def threadApiNames : List String :=
  ["Timer", "Thread", "threading.Timer", "threading.Thread",
   "multiprocessing.Process", "multiprocessing.Pool", "ThreadPoolExecutor",
   "ProcessPoolExecutor"]

/-- The call site's callee is a thread- or process-creating API. -/
def isThreadApiCall (s : String) : Bool :=
  threadApiNames.contains s

/-- Callees that would persist data to a file. -/
def isPersistingCall (s : String) : Bool :=
  s == "open" || strSuffix ".open" s || strSuffix ".save" s ||
  strSuffix ".savez" s || strSuffix ".savetxt" s || strSuffix ".savefig" s ||
  strSuffix ".write" s || strSuffix ".to_csv" s || strSuffix ".dump" s

/-- File extensions the spec lists for fetched input data. -/
def specInputExts : List String :=
  [".npz", ".pdb", ".dcd", ".xtc"]

/-- A fetched file name carries one of the spec's input extensions. -/
def hasSpecInputExt (f : String) : Bool :=
  specInputExts.any fun e => strSuffix e f

/-- A fetched file name carries one of the extensions actually fetched by the
notebooks: the spec's list plus `.npy` (plain numpy arrays). -/
def hasKnownInputExt (f : String) : Bool :=
  hasSpecInputExt f || strSuffix ".npy" f

/-- One step of the CircleCI `build` job. -/
inductive CIStep where
  | checkout
  | runStep (name : Option String) (command : String)
  | storeTestResults (path : String)
  deriving DecidableEq, BEq

/-- The CircleCI `build` job as declared in the repository's CI
configuration (version 2). -/
structure CIJob where
  docker : List String
  environment : List (String × String)
  parallelism : Nat
  steps : List CIStep
  deriving DecidableEq

/-- The `jobs.build` entry of the CI configuration. -/
def ciBuildJob : CIJob :=
  { docker := ["continuumio/miniconda3"],
    environment :=
      [("PYTHONHASHSEED", "0"), ("OMP_NUM_THREADS", "1"), ("PYEMMA_NJOBS", "1")],
    parallelism := 4,
    steps :=
      [CIStep.checkout,
       CIStep.runStep (some "conda_config")
         "conda config --add channels conda-forge\nconda config --set always_yes true\nconda config --set quiet true",
       CIStep.runStep none "conda install conda-build",
       CIStep.runStep none "conda build .",
       CIStep.storeTestResults "~/junit"] }

/-- What a conda recipe builds and whether its build runs a test suite. -/
structure CondaRecipe where
  package : String
  runsTests : Bool
  deriving DecidableEq

/-- Modelled from the spec: the conda recipe at the repository root (the
`meta.yaml` consumed by the CI's `conda build .` step) is repository code not
included under `src/`.  Per the spec's continuous-integration section, that
recipe packages and tests the external library itself (`pyemma`), unrelated
to the notebooks' own logic. -/
def repoRootRecipe : CondaRecipe :=
  { package := "pyemma", runsTests := true }

/-- The words of each CI step, used to check that no build step refers to
the notebooks. -/
def ciStepText : CIStep → String
  | CIStep.checkout => "checkout"
  | CIStep.runStep (some n) c => n ++ " " ++ c
  | CIStep.runStep none c => c
  | CIStep.storeTestResults p => p

/-- A CI step mentions the notebooks or their tooling. -/
def ciStepMentionsNotebooks (st : CIStep) : Bool :=
  listHasSub "ipynb".data (ciStepText st).data ||
  listHasSub "notebook".data (ciStepText st).data ||
  listHasSub "jupyter".data (ciStepText st).data

/-- Estimation errors surfaced by the external library. -/
inductive EstimationError where
  | disconnectedStates
  deriving DecidableEq

/-- Successor states of the state set `s` in the transition-support edge
list `edges`. -/
def succsOf (edges : List (Nat × Nat)) (s : List Nat) : List Nat :=
  (edges.filter fun e => s.contains e.1).map Prod.snd

/-- `n`-fold expansion of a state set by outgoing edges. -/
def reachIter (edges : List (Nat × Nat)) : Nat → List Nat → List Nat
  | 0, s => s
  | n + 1, s => reachIter edges n (s ++ (succsOf edges s).filter fun t => !s.contains t)

/-- A Markov chain abstracted by its number of states and the support of its
transition matrix. -/
structure MacroChain where
  n : Nat
  edges : List (Nat × Nat)
  deriving DecidableEq

/-- State `b` is reachable from state `a` in the chain's transition support. -/
def reachableB (m : MacroChain) (a b : Nat) : Bool :=
  (reachIter m.edges m.n [a]).contains b

/-- Every state of the chain is reachable from every state: the support is
strongly connected, which is exactly when a unique stationary distribution
exists. -/
def connectedB (m : MacroChain) : Bool :=
  (List.range m.n).all fun a => (List.range m.n).all fun b => reachableB m a b

/-- Modelled from the spec: `MSM.coarse_grain` is external-library code
(`pyemma`) not present in this repository.  Per the spec's error-handling
section, coarse-graining an MSM whose (macro)states are disconnected raises
a disconnected-state estimation error, because no unique stationary
distribution can be estimated; on a connected chain it succeeds. -/
def coarse_grain (m : MacroChain) (nstates : Nat) : Except EstimationError MacroChain :=
  if connectedB m then Except.ok { n := nstates, edges := m.edges } else
    Except.error EstimationError.disconnectedStates

/-- The macrostate structure of the disconnected double-well example of the
common-problems notebook: two metastable states (the two wells), each with
self-transitions only and no sampled transition between them. -/
def disconnectedDoubleWellMacro : MacroChain :=
  { n := 2, edges := [(0, 0), (1, 1)] }

/-- Modelled from the spec: the clustering estimators (`cluster_regspace`,
`cluster_kmeans`, `assign_to_centers`) are external-library code not present
in this repository.  Per the spec's data-model section, a clustering object
holds cluster centers and discrete trajectories of state indices; each frame
is assigned the index of its nearest cluster center.  `assignGo` scans the
remaining centers keeping the index of the best center seen so far. -/
def assignGo (x : ℚ) : List ℚ → Nat → ℚ → Nat → Nat
  | [], best, _, _ => best
  | c :: cs, best, bestd, i =>
    if |x - c| < bestd then assignGo x cs i (|x - c|) (i + 1)
    else assignGo x cs best bestd (i + 1)

/-- Index of the cluster center nearest to the frame `x` (first nearest wins
ties), the assignment producing a clustering object's discrete trajectories. -/
def assign (centers : List ℚ) (x : ℚ) : Nat :=
  match centers with
  | [] => 0
  | c :: cs => assignGo x cs 0 (|x - c|) 1

/-- The discrete trajectory of a trajectory of frames: the per-frame nearest
cluster-center indices (`cl.dtrajs`). -/
def dtrajOf (centers : List ℚ) (traj : List ℚ) : List Nat :=
  traj.map (assign centers)

/-- The first 'imaginary experiment' observable of the expectations notebook:
`o(x, y) = 0.5 * x + y + 4`. -/
def observable (x y : ℚ) : ℚ :=
  0.5 * x + y + 4

/-- The Exercise 1 observable of the expectations notebook:
`o2(x, y) = (2 + y) ** 2 + x`. -/
def new_observable (x y : ℚ) : ℚ :=
  (2 + y) ^ 2 + x

/-- The observable evaluated on the whole trajectory:
`ftraj = observable(*data.T)`. -/
def ftrajOf (data : List (ℚ × ℚ)) : List ℚ :=
  data.map fun p => observable p.1 p.2

/-- The Exercise 1 observable evaluated on the whole trajectory:
`new_ftraj = new_observable(*data.T)`. -/
def new_ftrajOf (data : List (ℚ × ℚ)) : List ℚ :=
  data.map fun p => new_observable p.1 p.2

/-- `ft[dtraj == i].mean()`: the mean of the observable trajectory over the
frames assigned to Markov state `i`. -/
def maskedMean (ft : List ℚ) (dtraj : List Nat) (i : Nat) : ℚ :=
  let sel := ((ft.zip dtraj).filter fun q => q.2 == i).map Prod.fst
  sel.sum / sel.length

/-- `observable_vec = np.array([ftraj[cluster.dtrajs[0] == i].mean() for i in
range(cluster.n_clusters)])`. -/
def observable_vec (data : List (ℚ × ℚ)) (dtraj : List Nat) (nClusters : Nat) : List ℚ :=
  (List.range nClusters).map (maskedMean (ftrajOf data) dtraj)

/-- The Exercise 1 reference solution's
`new_observable_vec = np.array([ftraj[cluster.dtrajs[0] == i].mean() for i in
range(cluster.n_clusters)])` — note that the solution cell computes it from
`ftraj`, not from the `new_ftraj` it computed on the previous line. -/
def new_observable_vec (data : List (ℚ × ℚ)) (dtraj : List Nat) (nClusters : Nat) : List ℚ :=
  (List.range nClusters).map (maskedMean (ftrajOf data) dtraj)

/-- The vector the Exercise 1 solution would have produced had it used
`new_ftraj`, for comparison. -/
def intended_new_observable_vec (data : List (ℚ × ℚ)) (dtraj : List Nat) (nClusters : Nat) : List ℚ :=
  (List.range nClusters).map (maskedMean (new_ftrajOf data) dtraj)

/-- The expectations notebook's helper
`def is_within(x, a, b): return ' not ' if x < a or x > b else ' '`. -/
def is_within {α : Type} [LinearOrder α] (x a b : α) : String :=
  if x < a ∨ x > b then " not " else " "

/-- The Karplus forward model of the expectations notebook:
`8.754 * np.cos(theta)**2 - 1.222 * np.cos(theta) + 0.111`. -/
noncomputable def Karplus (theta : ℝ) : ℝ :=
  8.754 * Real.cos theta ^ 2 - 1.222 * Real.cos theta + 0.111
theorem assignGo_lt (x : ℚ) :
    ∀ (cs : List ℚ) (best : Nat) (bestd : ℚ) (i : Nat),
      best < i → assignGo x cs best bestd i < i + cs.length := by
  intro cs
  induction cs with
  | nil =>
    intro best bestd i h
    simpa [assignGo] using h
  | cons c cs ih =>
    intro best bestd i h
    simp only [assignGo]
    split
    · have h2 := ih i (|x - c|) (i + 1) (Nat.lt_succ_self i)
      simp only [List.length_cons]
      omega
    · have h2 := ih best bestd (i + 1) (Nat.lt_succ_of_lt h)
      simp only [List.length_cons]
      omega

/-- C1: coarse-graining the MSM built on the disconnected double-well
discretization into two states raises the external library's
disconnected-state estimation error (modelled from the spec, the library not
being part of this repository), and the notebooks implement no recovery
logic: no code cell of any notebook in the repository contains a try/except
block. -/
theorem coarse_grain_error_never_caught :
    coarse_grain disconnectedDoubleWellMacro 2 =
      Except.error EstimationError.disconnectedStates ∧
    noTryExceptInRepo = true := by
  exact ⟨rfl, by decide⟩

/-- C2 counterexample: the common-problems notebook fetches
`doublewell_oneway.npy` (into `data`), whose extension is none of the
`.npz`, `.pdb`, `.dcd`, `.xtc` listed by the spec. -/
theorem fetch_includes_npy_file :
    ({ fname := "doublewell_oneway.npy", wdir := "data" } : FetchCall) ∈ fetchCalls ∧
    hasSpecInputExt "doublewell_oneway.npy" = false := by
  exact ⟨by decide, by decide⟩

/-- C2 (amended): every `mdshare.fetch` call in the repository requests a
`.npz`, `.npy`, `.pdb`, `.dcd` or `.xtc` file and deposits it into the local
working directory `data`. -/
theorem fetched_files_known_ext_into_data :
    (fetchCalls.all fun f => hasKnownInputExt f.fname && (f.wdir == "data")) = true := by
  decide

/-- C3 counterexample: the structure-viewing cell of the data-I/O notebook
(notebook index 6, cell index 5) calls `Timer`, a thread-creating API of the
`threading` module, so notebook code does create and start an additional
thread of execution. -/
theorem nglview_cell_starts_timer_thread :
    (((repoNotebooks.getD 6 { name := "", cells := [] }).cells.getD 5
        { calls := [], kws := [] }).calls.contains "Timer") = true ∧
    (repoNotebooks.getD 6 { name := "", cells := [] }).name =
      "01 - Data-I/O and featurization" ∧
    isThreadApiCall "Timer" = true := by
  exact ⟨by decide, rfl, by decide⟩

/-- C3 (amended): the notebooks are sequential scripts with no concurrency
coordination, except that the two structure-viewing cells of the data-I/O
notebook each construct (and start) a `threading.Timer` that stops the
nglview widget's spin after 30 seconds: every thread- or process-creating
call in any notebook cell is a `Timer` call occurring in a cell of the
data-I/O notebook that also calls `nglview.show_mdtraj`. -/
theorem thread_calls_only_nglview_spin_timer :
    (repoNotebooks.all fun nb => nb.cells.all fun c => c.calls.all fun s =>
      !isThreadApiCall s ||
        (s == "Timer" && nb.name == "01 - Data-I/O and featurization" &&
          c.calls.contains "nglview.show_mdtraj")) = true := by
  decide

/-- C4: the CI configuration's `build` job runs `conda build .`, which
builds and tests the conda recipe at the repository root; that recipe
(modelled from the spec, not being included under `src/`) packages and
tests the external library `pyemma`; and no build step refers to the
notebooks or their tooling. -/
theorem ci_builds_and_tests_external_library :
    ciBuildJob.steps.contains (CIStep.runStep none "conda build .") = true ∧
    repoRootRecipe.package = "pyemma" ∧
    repoRootRecipe.runsTests = true ∧
    (ciBuildJob.steps.all fun st => !ciStepMentionsNotebooks st) = true := by
  exact ⟨by decide, rfl, rfl, by decide⟩

/-- C5: every estimator and method named in the spec's component list is
invoked at least once somewhere in the repository's notebook sources. -/
theorem all_spec_components_invoked :
    componentNames.all invoked = true := by
  decide

/-- C6: the discrete trajectories of a clustering (modelled from the spec as
nearest-cluster-center assignment, the clustering estimators being
external-library code) are arrays of state indices into the cluster centers:
as long as there is at least one center, every entry is a valid index below
`n_clusters`, so the `cl.clustercenters[cl.dtrajs[n][...]]` lookup performed
while plotting is in bounds. -/
theorem dtraj_indices_in_bounds :
    ∀ (centers traj : List ℚ), centers ≠ [] →
      ((dtrajOf centers traj).all fun d =>
        decide (d < centers.length) && (centers.get? d).isSome) = true := by
  intro centers traj h
  rw [List.all_eq_true]
  intro d hd
  rw [dtrajOf, List.mem_map] at hd
  obtain ⟨x, -, rfl⟩ := hd
  have hb : assign centers x < centers.length := by
    cases centers with
    | nil => exact absurd rfl h
    | cons c cs =>
      have h2 := assignGo_lt x cs 0 (|x - c|) 1 Nat.one_pos
      simp only [assign, List.length_cons]
      omega
  have h1 : decide (assign centers x < centers.length) = true := decide_eq_true hb
  have h2 : (centers.get? (assign centers x)).isSome = true := by
    rw [List.get?_eq_get hb]
    rfl
  rw [h1, h2]
  rfl

theorem dtraj_indices_in_bounds_witness :
    ([0, 1, 2] : List ℚ) ≠ [] ∧
      ((dtrajOf [0, 1, 2] [5/2, 1/10]).all fun d =>
        decide (d < ([0, 1, 2] : List ℚ).length) &&
          (([0, 1, 2] : List ℚ).get? d).isSome) = true :=
  ⟨by decide, dtraj_indices_in_bounds [0, 1, 2] [5/2, 1/10] (by decide)⟩

/-- C7: the single `save_traj` call of the notebooks passes `outfile=None`
(the sampled frames are returned in memory), and no call site anywhere in
the notebooks is a file-persisting operation, so no output file is written
by any notebook. -/
theorem outputs_not_persisted :
    (saveTrajCalls.all fun st => st.outfile == none) = true ∧
    (repoNotebooks.all fun nb => nb.cells.all fun c =>
      c.calls.all fun s => !isPersistingCall s) = true := by
  exact ⟨by decide, by decide⟩

/-- C8: the Exercise 1 reference solution of the observables notebook
computes `new_observable_vec` from `ftraj` rather than from `new_ftraj`, so
it is element-wise equal to `observable_vec` for every data set, discrete
trajectory and cluster count. -/
theorem new_observable_vec_eq_observable_vec :
    ∀ (data : List (ℚ × ℚ)) (dtraj : List Nat) (nClusters : Nat),
      new_observable_vec data dtraj nClusters =
        observable_vec data dtraj nClusters :=
  fun _ _ _ => rfl

theorem new_observable_vec_ignores_new_ftraj :
    intended_new_observable_vec [(1, 0)] [0] 1 ≠
      new_observable_vec [(1, 0)] [0] 1 := by
  simp only [intended_new_observable_vec, new_observable_vec, maskedMean,
    new_ftrajOf, ftrajOf, new_observable, observable, List.range_succ,
    List.range_zero, List.map_nil, List.map_cons, List.nil_append,
    List.zip_cons_cons, List.zip_nil_right, List.filter, List.map]
  norm_num

/-- C9: `is_within(x, a, b)` returns the string `' not '` exactly when
`x < a` or `x > b`, and returns `' '` exactly when `a <= x <= b`. -/
theorem is_within_characterization :
    ∀ x a b : ℝ,
      (is_within x a b = " not " ↔ (x < a ∨ x > b)) ∧
      (is_within x a b = " " ↔ (a ≤ x ∧ x ≤ b)) := by
  intro x a b
  have hiff : ¬(x < a ∨ x > b) ↔ (a ≤ x ∧ x ≤ b) := by
    constructor
    · intro h3
      exact ⟨le_of_not_lt fun hh => h3 (Or.inl hh),
        le_of_not_lt fun hh => h3 (Or.inr hh)⟩
    · rintro ⟨h1, h2⟩ (h3 | h3)
      · exact absurd h1 (not_le.mpr h3)
      · exact absurd h2 (not_le.mpr h3)
  constructor
  · constructor
    · intro hs
      by_contra hcon
      rw [is_within, if_neg hcon] at hs
      exact absurd hs (by decide)
    · intro h
      rw [is_within, if_pos h]
  · constructor
    · intro hs
      by_contra hcon
      have h2 : x < a ∨ x > b := by
        by_contra h3
        exact hcon (hiff.mp h3)
      rw [is_within, if_pos h2] at hs
      exact absurd hs (by decide)
    · intro hc
      rw [is_within, if_neg (hiff.mpr hc)]

/-- C10: the Karplus forward model is an even function of the dihedral
angle: its value depends on the angle only through the cosine. -/
theorem Karplus_even :
    ∀ theta : ℝ, Karplus theta = Karplus (-theta) := by
  intro t
  simp [Karplus, Real.cos_neg]
